import Mathlib

/-!
Shallow embedding of the robot-dashboard session layer:
`src/web/frontend/src/stores/robotStore.js` (the Pinia session store) and
`src/web/frontend/src/services/api/robotApi.js` (the fetch-based transport
adapter).  The store's mutable fields become a `StoreState` record, each
store action becomes an explicit state-passing function parameterised by the
outcome of its awaited adapter call, socket emissions and outbound HTTP
requests are collected in output lists, and a step relation over a list of
`Step`s models a whole session.
-/

namespace Robot

/-- `CameraRef`: `{ id, name }`, an entry of `status.cameras`. -/
structure CameraRef where
  id : String
  name : String
deriving DecidableEq, Repr

/-- `RobotConfig`: `{ path, name }`, an entry of the configuration catalog. -/
structure RobotConfig where
  path : String
  name : String
deriving DecidableEq, Repr

/-- The `status` object of the store (`robotStore.js` state).  `mode` and
`error` are nullable strings, modelled as `Option String`. -/
structure Status where
  connected : Bool
  mode : Option String
  error : Option String
  cameras : List CameraRef
  available_arms : List String
deriving DecidableEq, Repr

/-- The initial `status` literal of `robotStore.js`. -/
def initialStatus : Status :=
  { connected := false, mode := none, error := none, cameras := [], available_arms := [] }

/-- The store's state fields.  `socket` is `true` when the socket.io object
is non-null; `cameraStreams` is the id-to-data-URL map as an association
list; `statusPollingTimer` is `true` when the interval timer is set. -/
structure StoreState where
  status : Status
  configs : List RobotConfig
  isLoading : Bool
  socket : Bool
  cameraStreams : List (String × String)
  statusPollingTimer : Bool
deriving DecidableEq, Repr

/-- The store's initial state. -/
def initialState : StoreState :=
  { status := initialStatus, configs := [], isLoading := false, socket := false,
    cameraStreams := [], statusPollingTimer := false }

/-- Outcome of an awaited adapter promise: `resolved r` when it fulfils with
`response.data = r`; `rejected msg` when it rejects with an error whose
recorded message (`error.response?.data?.message || error.message`, which
`apiCall` makes coincide) is `msg`. -/
inductive ApiOutcome (α : Type) where
  | resolved (resp : α)
  | rejected (message : String)
deriving DecidableEq, Repr

/-- The `data` sub-object of a successful `/connect` response.  Fields are
`Option`s because the JS reads them with a `|| []` fallback for
null/undefined. -/
structure ConnectData where
  available_arms : Option (List String)
  cameras : Option (List CameraRef)
deriving DecidableEq, Repr

/-- Response body of the `/connect` endpoint as read by the store. -/
structure ConnectResp where
  status : String
  message : Option String
  data : Option ConnectData
deriving DecidableEq, Repr

/-- Response body carrying just `status` (and possibly `message`), as read
by `disconnectRobot`, `startTeleoperation` and `stopTeleoperation`. -/
structure SimpleResp where
  status : String
  message : Option String
deriving DecidableEq, Repr

/-- A socket.io emission performed by the store. -/
inductive SockEvent where
  | startCameraStream (cameraId : String) (fps : Nat)
  | stopCameraStream (cameraId : String)
deriving DecidableEq, Repr

/-- Result of a JS async function: fulfilled with a value, or rejected
(an exception propagated to the caller) with a message. -/
inductive JSResult (α : Type) where
  | ok (a : α)
  | thrown (msg : String)
deriving DecidableEq, Repr

/-- `initSocket()`: creates the socket only if it is null. -/
def initSocket (s : StoreState) : StoreState :=
  if s.socket then s else { s with socket := true }

/-- `cleanupSocket()`: disconnects and clears the socket if present. -/
def cleanupSocket (s : StoreState) : StoreState :=
  if s.socket then { s with socket := false } else s

/-- `stopStatusPolling()`: clears the interval timer if set. -/
def stopStatusPolling (s : StoreState) : StoreState :=
  if s.statusPollingTimer then { s with statusPollingTimer := false } else s

/-- `startStatusPolling(interval = 1000)`: stops any previous timer, then
installs the repeating timer. -/
def startStatusPolling (s : StoreState) : StoreState :=
  { stopStatusPolling s with statusPollingTimer := true }

/-- The `availableCameras` getter: `state.status.cameras || []` (a JS array
is always non-null here, so this is just the field). -/
def availableCameras (s : StoreState) : List CameraRef :=
  s.status.cameras

/-- `startAllCameraStreams(fps = 10)`: no-op when the socket is null;
otherwise emits `start_camera_stream` for each available camera. -/
def startAllCameraStreams (s : StoreState) (fps : Nat) : List SockEvent :=
  if s.socket then (availableCameras s).map (fun c => SockEvent.startCameraStream c.id fps)
  else []

/-- `stopAllCameraStreams()`: no-op when the socket is null; otherwise emits
`stop_camera_stream` for each available camera. -/
def stopAllCameraStreams (s : StoreState) : List SockEvent :=
  if s.socket then (availableCameras s).map (fun c => SockEvent.stopCameraStream c.id)
  else []

/-- `connectRobot(robotConfig, robotOverrides = null)`: awaits
`robotApi.connect`; on a resolved response with `status === 'success'`
initialises the socket, starts polling, sets `connected` and copies
`available_arms`/`cameras` from `response.data.data` when present; on
rejection records the message into `status.error` and re-throws.  The
loading flag is cleared in `finally`. -/
def connectRobot (s : StoreState) (outcome : ApiOutcome ConnectResp) :
    StoreState × JSResult ConnectResp :=
  let s := { s with isLoading := true }
  match outcome with
  | .resolved r =>
    if r.status = "success" then
      let s := initSocket s
      let s := startStatusPolling s
      let s := { s with status := { s.status with connected := true } }
      let s := match r.data with
        | some d =>
          { s with status := { s.status with
              available_arms := d.available_arms.getD [],
              cameras := d.cameras.getD [] } }
        | none => s
      ({ s with isLoading := false }, .ok r)
    else
      ({ s with isLoading := false }, .ok r)
  | .rejected msg =>
    ({ s with status := { s.status with error := some msg }, isLoading := false },
     .thrown msg)

/-- `disconnectRobot()`: first emits stop-stream signals for all cameras,
then awaits `robotApi.disconnect`; only on `status === 'success'` does it
stop polling, clean up the socket and reset `connected`, `mode` and the
frame map; on rejection records the message and re-throws. -/
def disconnectRobot (s : StoreState) (outcome : ApiOutcome SimpleResp) :
    StoreState × List SockEvent × JSResult SimpleResp :=
  let s := { s with isLoading := true }
  let evs := stopAllCameraStreams s
  match outcome with
  | .resolved r =>
    if r.status = "success" then
      let s := stopStatusPolling s
      let s := cleanupSocket s
      let s := { s with
        status := { s.status with connected := false, mode := none },
        cameraStreams := [] }
      ({ s with isLoading := false }, evs, .ok r)
    else
      ({ s with isLoading := false }, evs, .ok r)
  | .rejected msg =>
    ({ s with status := { s.status with error := some msg }, isLoading := false },
     evs, .thrown msg)

/-- `startTeleoperation(fps = null)` (store action): awaits
`robotApi.startTeleoperation`; on `status === 'success'` sets
`mode = 'teleoperating'` and calls `startAllCameraStreams()` (socket
default fps 10); on rejection records the message and re-throws. -/
def startTeleoperationAction (s : StoreState) (outcome : ApiOutcome SimpleResp) :
    StoreState × List SockEvent × JSResult SimpleResp :=
  let s := { s with isLoading := true }
  match outcome with
  | .resolved r =>
    if r.status = "success" then
      let s := { s with status := { s.status with mode := some "teleoperating" } }
      let evs := startAllCameraStreams s 10
      ({ s with isLoading := false }, evs, .ok r)
    else
      ({ s with isLoading := false }, [], .ok r)
  | .rejected msg =>
    ({ s with status := { s.status with error := some msg }, isLoading := false },
     [], .thrown msg)

/-- `stopTeleoperation()`: on `status === 'success'` sets `mode = null`; on
rejection records the message and re-throws. -/
def stopTeleoperationAction (s : StoreState) (outcome : ApiOutcome SimpleResp) :
    StoreState × JSResult SimpleResp :=
  let s := { s with isLoading := true }
  match outcome with
  | .resolved r =>
    if r.status = "success" then
      ({ s with status := { s.status with mode := none }, isLoading := false }, .ok r)
    else
      ({ s with isLoading := false }, .ok r)
  | .rejected msg =>
    ({ s with status := { s.status with error := some msg }, isLoading := false },
     .thrown msg)

/-- `fetchStatus()`: on resolution replaces `status` wholesale with
`response.data`; on rejection is silent (logged only). -/
def fetchStatus (s : StoreState) (outcome : ApiOutcome Status) : StoreState :=
  match outcome with
  | .resolved st => { s with status := st }
  | .rejected _ => s

/-- `fetchConfigs()`: on resolution replaces the catalog; on rejection is
silent.  The loading flag is cleared in `finally`. -/
def fetchConfigs (s : StoreState) (outcome : ApiOutcome (List RobotConfig)) : StoreState :=
  match outcome with
  | .resolved cfgs => { s with configs := cfgs, isLoading := false }
  | .rejected _ => { s with isLoading := false }

/-! ### Transport adapter (`robotApi.js`) -/

/-- A JS numeric-slot value as it appears in a request body: `undefined`,
`null`, or a number.  JS default parameter values fire only on
`undefined`. -/
inductive JSNum where
  | undefined
  | null
  | num (n : Int)
deriving DecidableEq, Repr

/-- A JSON value appearing in a request body (only the shapes this adapter
builds). -/
inductive JVal where
  | jstr (s : String)
  | jnum (n : Int)
  | jnull
  | jbool (b : Bool)
  | jarr (xs : List String)
deriving DecidableEq, Repr

/-- Method and endpoint of an adapter operation, relative to
`API_BASE = '/api/robot'`. -/
structure AdapterOp where
  method : String
  endpoint : String
deriving DecidableEq, Repr

/-- The members of `robotApi.js`'s default export, by name.  The export has
exactly six operations; any other member access yields `undefined`. -/
def robotApiExports : String → Option AdapterOp
  | "getConfigs" => some { method := "GET", endpoint := "/configs" }
  | "connect" => some { method := "POST", endpoint := "/connect" }
  | "disconnect" => some { method := "POST", endpoint := "/disconnect" }
  | "getStatus" => some { method := "GET", endpoint := "/status" }
  | "startTeleoperation" => some { method := "POST", endpoint := "/teleoperate/start" }
  | "stopTeleoperation" => some { method := "POST", endpoint := "/teleoperate/stop" }
  | _ => none

/-- `robotApi.connect(operationMode = 'bimanual')`: the request body is
`{ operation_mode: operationMode }`.  The function declares a single
parameter. -/
def connectRequestBody (operationMode : Option String) : List (String × JVal) :=
  [("operation_mode", JVal.jstr (operationMode.getD "bimanual"))]

/-- The body of the `/connect` request produced when the store runs
`robotApi.connect(robotConfig, robotOverrides)`: the adapter's single
declared parameter receives `robotConfig`, and the extra `robotOverrides`
argument is dropped at the call boundary (standard JS extra-argument
semantics). -/
def storeConnectRequestBody (robotConfig : String)
    (_robotOverrides : Option (List String)) : List (String × JVal) :=
  connectRequestBody (some robotConfig)

/-- Body of `/teleoperate/start`: `{ fps, show_cameras }`. -/
structure TeleopBody where
  fps : JSNum
  show_cameras : Bool
deriving DecidableEq, Repr

/-- `robotApi.startTeleoperation(fps = 30, showCameras = true)`: both
defaults fire only when the corresponding argument is `undefined`. -/
def teleopRequestBody (fpsArg : JSNum) (showCamerasArg : Option Bool) : TeleopBody :=
  { fps := match fpsArg with
      | JSNum.undefined => JSNum.num 30
      | a => a,
    show_cameras := showCamerasArg.getD true }

/-- The store action is declared `startTeleoperation(fps = null)`, so a
missing argument becomes `null` before being handed to the adapter. -/
def storeTeleopFps : JSNum → JSNum
  | JSNum.undefined => JSNum.null
  | a => a

/-- Body of the `/teleoperate/start` request produced when the store runs
`robotApi.startTeleoperation(fps)` with the store's own `fps` argument
(`showCameras` is never passed, hence `undefined`). -/
def storeTeleopRequestBody (fpsArg : JSNum) : TeleopBody :=
  teleopRequestBody (storeTeleopFps fpsArg) none

/-- Result of the awaited `fetch` in `apiCall`, for an endpoint whose JSON
body parses to `α`: a network-level rejection, or an HTTP response with its
`ok` flag, status code, status text and parsed body (`none` when
`response.json()` fails). -/
inductive FetchResult (α : Type) where
  | networkError (msg : String)
  | response (ok : Bool) (code : Nat) (text : String) (body : Option α)
deriving DecidableEq, Repr

/-- JS `a || b` on a nullable string: falsy when absent or empty. -/
def truthyOr : Option String → String → String
  | none, d => d
  | some m, d => if m = "" then d else m

/-- `apiCall(endpoint, options)`: rejects on network error; rejects with
`'Invalid JSON response from server'` when the body does not parse; on a
non-ok response rejects with `data.message || 'HTTP <code>: <text>'`;
otherwise resolves with `{ data }`.  Every rejection is re-wrapped so that
`error.message` and `error.response.data.message` coincide, which is the
message `ApiOutcome.rejected` carries. -/
def apiCall {α : Type} (msgOf : α → Option String) (f : FetchResult α) : ApiOutcome α :=
  match f with
  | .networkError msg => .rejected msg
  | .response _ _ _ none => .rejected "Invalid JSON response from server"
  | .response ok code text (some body) =>
    if ok then .resolved body
    else .rejected (truthyOr (msgOf body) ("HTTP " ++ toString code ++ ": " ++ text))

/-- `connectRobot` composed with the adapter's `apiCall` handling of the
`/connect` HTTP exchange. -/
def connectRobotViaHttp (s : StoreState) (f : FetchResult ConnectResp) :
    StoreState × JSResult ConnectResp :=
  connectRobot s (apiCall (fun r => r.message) f)

/-! ### `sendAction` and the camera-frame handler -/

/-- `sendAction(action)`: awaits `robotApi.sendAction(action)`.  The export
table has no `sendAction` member, so the member access yields `undefined`
and the call throws `TypeError: robotApi.sendAction is not a function`
before any request is issued; the `catch` records
`error.response?.data?.message || error.message` (here `error.response` is
`undefined`, so the TypeError's message) into `status.error` and does not
re-throw.  Returns the new state, the HTTP operations issued, and the
action's own settlement. -/
def sendAction (s : StoreState) : StoreState × List AdapterOp × JSResult Unit :=
  match robotApiExports "sendAction" with
  | some op => (s, [op], .ok ())
  | none =>
    ({ s with status :=
        { s.status with error := some "robotApi.sendAction is not a function" } },
     [], .ok ())

/-- JS truthiness of a nullable string field: absent/null and `''` are
falsy. -/
def truthyStr : Option String → Bool
  | none => false
  | some s => !(s = "")

/-- Payload of a `camera_frame` socket event (fields may be absent or
falsy). -/
structure FrameData where
  camera_id : Option String
  frame : Option String
deriving DecidableEq, Repr

/-- Insert-or-overwrite in the `cameraStreams` association list. -/
def setStream (k v : String) : List (String × String) → List (String × String)
  | [] => [(k, v)]
  | (k0, v0) :: rest =>
    if k0 = k then (k, v) :: rest else (k0, v0) :: setStream k v rest

/-- The `camera_frame` handler registered by `initSocket`: only when both
`data.camera_id` and `data.frame` are truthy does it write
`cameraStreams[camera_id] = 'data:image/jpeg;base64,' + frame`. -/
def onCameraFrame (s : StoreState) (d : FrameData) : StoreState :=
  if truthyStr d.camera_id && truthyStr d.frame then
    { s with cameraStreams :=
        (setStream (d.camera_id.getD "") ("data:image/jpeg;base64," ++ d.frame.getD "")
          s.cameraStreams) }
  else s

/-! ### Session traces -/

/-- One step of a session: a user-triggered store action together with the
outcome of its awaited adapter call, a tick of the polling timer, or an
incoming `camera_frame` event. -/
inductive Step where
  | connect (outcome : ApiOutcome ConnectResp)
  | disconnect (outcome : ApiOutcome SimpleResp)
  | teleopStart (outcome : ApiOutcome SimpleResp)
  | teleopStop (outcome : ApiOutcome SimpleResp)
  | statusFetch (outcome : ApiOutcome Status)
  | configsFetch (outcome : ApiOutcome (List RobotConfig))
  | action
  | timerTick (outcome : ApiOutcome Status)
  | frame (data : FrameData)
deriving DecidableEq, Repr

/-- State transformation of one step.  A timer tick runs `fetchStatus` only
if the interval timer is currently set; a frame event is handled only if
the socket (which carries the handler) exists. -/
def stepState (s : StoreState) : Step → StoreState
  | .connect o => (connectRobot s o).1
  | .disconnect o => (disconnectRobot s o).1
  | .teleopStart o => (startTeleoperationAction s o).1
  | .teleopStop o => (stopTeleoperationAction s o).1
  | .statusFetch o => fetchStatus s o
  | .configsFetch o => fetchConfigs s o
  | .action => (sendAction s).1
  | .timerTick o => if s.statusPollingTimer then fetchStatus s o else s
  | .frame d => if s.socket then onCameraFrame s d else s

/-- The HTTP operations a step causes the adapter to issue. -/
def stepApiCalls (s : StoreState) : Step → List AdapterOp
  | .connect _ => (robotApiExports "connect").toList
  | .disconnect _ => (robotApiExports "disconnect").toList
  | .teleopStart _ => (robotApiExports "startTeleoperation").toList
  | .teleopStop _ => (robotApiExports "stopTeleoperation").toList
  | .statusFetch _ => (robotApiExports "getStatus").toList
  | .configsFetch _ => (robotApiExports "getConfigs").toList
  | .action => (robotApiExports "sendAction").toList
  | .timerTick _ => if s.statusPollingTimer then (robotApiExports "getStatus").toList else []
  | .frame _ => []

/-- Run a list of steps from a state. -/
def runTrace (s : StoreState) : List Step → StoreState
  | [] => s
  | st :: rest => runTrace (stepState s st) rest

/-! ### Invariant infrastructure -/

/-- The spec's ConnectionStatus invariant: `mode` is non-null only when
`connected` is true. -/
def statusModeInv (st : Status) : Bool :=
  !st.mode.isSome || st.connected

/-- Environment discipline for one step: `startTeleoperation` resolves with
success only while the store is connected, and every status payload the
server returns itself satisfies the mode/connected invariant. -/
def stepOk (s : StoreState) : Step → Bool
  | Step.teleopStart (ApiOutcome.resolved r) =>
    if r.status = "success" then s.status.connected else true
  | Step.statusFetch (ApiOutcome.resolved st) => statusModeInv st
  | Step.timerTick (ApiOutcome.resolved st) => statusModeInv st
  | _ => true

/-- A trace whose every step obeys `stepOk` at the state it runs in. -/
def wellBehaved : StoreState → List Step → Bool
  | _, [] => true
  | s, st :: rest => stepOk s st && wellBehaved (stepState s st) rest

/-! ### Concrete sample values -/

/-- A sample camera. -/
def cam1 : CameraRef := { id := "cam1", name := "Camera 1" }

/-- A successful `/connect` response carrying arms and one camera. -/
def successConn : ConnectResp :=
  { status := "success", message := none,
    data := some { available_arms := some ["left", "right"], cameras := some [cam1] } }

/-- A `{status:'error', message:'port busy'}` body of `/connect`. -/
def portBusyResp : ConnectResp :=
  { status := "error", message := some "port busy", data := none }

/-- A plain success acknowledgement. -/
def okResp : SimpleResp := { status := "success", message := none }

/-- A resolved non-success acknowledgement. -/
def errResp : SimpleResp := { status := "error", message := some "busy" }

/-- Connect successfully, then receive one good camera frame: a state with
an open socket, an active timer and a non-empty frame map. -/
def sConnected : StoreState :=
  runTrace initialState
    [Step.connect (ApiOutcome.resolved successConn),
     Step.frame { camera_id := some "cam1", frame := some "abc" }]

/-- Connect successfully, then disconnect successfully: the socket is gone
but `status.cameras` is left over from the connect response. -/
def sAfterDisconnect : StoreState :=
  runTrace initialState
    [Step.connect (ApiOutcome.resolved successConn),
     Step.disconnect (ApiOutcome.resolved okResp)]

/-- Connect successfully, then let one poll tick report a disconnected
status: the timer is still set while `connected` is false. -/
def pollTrace : List Step :=
  [Step.connect (ApiOutcome.resolved successConn),
   Step.timerTick (ApiOutcome.resolved initialStatus)]

/-- A well-behaved demonstration trace: connect, then teleoperate. -/
def demoTrace : List Step :=
  [Step.connect (ApiOutcome.resolved successConn),
   Step.teleopStart (ApiOutcome.resolved okResp)]

/-- A frame event with a missing camera id. -/
def dBad : FrameData := { camera_id := none, frame := some "zz" }

/-- A frame event with both fields present and non-empty. -/
def dGood : FrameData := { camera_id := some "cam1", frame := some "abc" }

/-! ### Helper lemmas -/

/-- The `camera_frame` handler touches only `cameraStreams`. -/
theorem onCameraFrame_status (s : StoreState) (d : FrameData) :
    (onCameraFrame s d).status = s.status := by
  unfold onCameraFrame
  split <;> rfl

/-- Under the `stepOk` environment discipline, every step preserves the
mode/connected invariant. -/
theorem stepState_preserves_modeInv (s : StoreState) (st : Step)
    (hs : statusModeInv s.status = true) (hok : stepOk s st = true) :
    statusModeInv (stepState s st).status = true := by
  cases st with
  | connect o =>
    cases o with
    | resolved r =>
      by_cases h : r.status = "success"
      · cases hd : r.data <;>
          cases hso : s.socket <;> cases hti : s.statusPollingTimer <;>
          simp [stepState, connectRobot, h, hd, initSocket, startStatusPolling,
            stopStatusPolling, statusModeInv, hso, hti]
      · simpa [stepState, connectRobot, h, statusModeInv] using hs
    | rejected m => simpa [stepState, connectRobot, statusModeInv] using hs
  | disconnect o =>
    cases o with
    | resolved r =>
      by_cases h : r.status = "success"
      · cases hso : s.socket <;> cases hti : s.statusPollingTimer <;>
          simp [stepState, disconnectRobot, h, stopStatusPolling, cleanupSocket,
            statusModeInv, hso, hti]
      · simpa [stepState, disconnectRobot, h, statusModeInv] using hs
    | rejected m => simpa [stepState, disconnectRobot, statusModeInv] using hs
  | teleopStart o =>
    cases o with
    | resolved r =>
      by_cases h : r.status = "success"
      · have hc : s.status.connected = true := by simpa [stepOk, h] using hok
        simp [stepState, startTeleoperationAction, h, statusModeInv, hc]
      · simpa [stepState, startTeleoperationAction, h, statusModeInv] using hs
    | rejected m => simpa [stepState, startTeleoperationAction, statusModeInv] using hs
  | teleopStop o =>
    cases o with
    | resolved r =>
      by_cases h : r.status = "success"
      · simp [stepState, stopTeleoperationAction, h, statusModeInv]
      · simpa [stepState, stopTeleoperationAction, h, statusModeInv] using hs
    | rejected m => simpa [stepState, stopTeleoperationAction, statusModeInv] using hs
  | statusFetch o =>
    cases o with
    | resolved st' => simpa [stepState, fetchStatus, stepOk] using hok
    | rejected m => simpa [stepState, fetchStatus] using hs
  | configsFetch o =>
    cases o with
    | resolved cfgs => simpa [stepState, fetchConfigs, statusModeInv] using hs
    | rejected m => simpa [stepState, fetchConfigs, statusModeInv] using hs
  | action =>
    have h0 : robotApiExports "sendAction" = none := by decide
    simpa [stepState, sendAction, h0, statusModeInv] using hs
  | timerTick o =>
    cases o with
    | resolved st' =>
      cases hti : s.statusPollingTimer <;> simp_all [stepState, fetchStatus, stepOk]
    | rejected m =>
      cases hti : s.statusPollingTimer <;> simpa [stepState, fetchStatus, hti] using hs
  | frame d =>
    cases hso : s.socket
    · simpa [stepState, hso] using hs
    · simpa [stepState, hso, onCameraFrame_status] using hs

/-- The mode/connected invariant is inductive along well-behaved traces. -/
theorem wellBehaved_preserves_modeInv (tr : List Step) :
    ∀ s : StoreState, statusModeInv s.status = true → wellBehaved s tr = true →
      statusModeInv (runTrace s tr).status = true := by
  induction tr with
  | nil => intro s hs _; exact hs
  | cons st rest ih =>
    intro s hs h
    rw [wellBehaved, Bool.and_eq_true] at h
    exact ih _ (stepState_preserves_modeInv s st hs h.1) h.2

/-! ### Claim theorems -/

/-- Claim C1: for every `connectRobot` call whose adapter call resolves with
`status = "success"`, afterwards `status.connected` is true, the polling
timer is active, the socket (streaming channel) is open, and the
`available_arms` and `cameras` fields returned in `response.data.data` are
written into the connection status (with `[]` for absent fields). -/
theorem connectRobot_success_postcondition (s : StoreState) (r : ConnectResp)
    (h : r.status = "success") :
    (connectRobot s (ApiOutcome.resolved r)).1.status.connected = true ∧
    (connectRobot s (ApiOutcome.resolved r)).1.statusPollingTimer = true ∧
    (connectRobot s (ApiOutcome.resolved r)).1.socket = true ∧
    ∀ d, r.data = some d →
      (connectRobot s (ApiOutcome.resolved r)).1.status.available_arms
        = d.available_arms.getD [] ∧
      (connectRobot s (ApiOutcome.resolved r)).1.status.cameras = d.cameras.getD [] := by
  cases hd : r.data with
  | none =>
    cases hso : s.socket <;> cases hti : s.statusPollingTimer <;>
      simp [connectRobot, h, hd, initSocket, startStatusPolling, stopStatusPolling, hso, hti]
  | some d =>
    cases hso : s.socket <;> cases hti : s.statusPollingTimer <;>
      simp [connectRobot, h, hd, initSocket, startStatusPolling, stopStatusPolling, hso, hti]

/-- Witness for C1 at the initial state and a concrete success response. -/
theorem connectRobot_success_postcondition_witness :
    (connectRobot initialState (ApiOutcome.resolved successConn)).1.status.connected = true ∧
    (connectRobot initialState (ApiOutcome.resolved successConn)).1.statusPollingTimer = true ∧
    (connectRobot initialState (ApiOutcome.resolved successConn)).1.socket = true ∧
    (connectRobot initialState (ApiOutcome.resolved successConn)).1.status.available_arms
      = ["left", "right"] ∧
    (connectRobot initialState (ApiOutcome.resolved successConn)).1.status.cameras = [cam1] := by
  have h := connectRobot_success_postcondition initialState successConn rfl
  exact ⟨h.1, h.2.1, h.2.2.1, (h.2.2.2 _ rfl).1, (h.2.2.2 _ rfl).2⟩

/-- Counterexample to C2: a `disconnectRobot` call whose adapter call
resolves without `status = "success"` (here `{status:'error'}`), issued
from a connected state with a non-empty frame map, leaves `cameraStreams`
non-empty, `status.connected` true and the polling timer running. -/
theorem disconnect_nonsuccess_leaves_state_counterexample :
    (disconnectRobot sConnected (ApiOutcome.resolved errResp)).1.cameraStreams ≠ [] ∧
    (disconnectRobot sConnected (ApiOutcome.resolved errResp)).1.status.connected = true ∧
    (disconnectRobot sConnected (ApiOutcome.resolved errResp)).1.statusPollingTimer = true := by
  decide

/-- Claim C2 as amended: for every `disconnectRobot` call whose adapter
call resolves with `status = "success"`, afterwards `cameraStreams` is
empty, `status.connected` is false and the polling timer is stopped. -/
theorem disconnectRobot_success_resets (s : StoreState) (r : SimpleResp)
    (h : r.status = "success") :
    (disconnectRobot s (ApiOutcome.resolved r)).1.cameraStreams = [] ∧
    (disconnectRobot s (ApiOutcome.resolved r)).1.status.connected = false ∧
    (disconnectRobot s (ApiOutcome.resolved r)).1.statusPollingTimer = false := by
  cases hso : s.socket <;> cases hti : s.statusPollingTimer <;>
    simp [disconnectRobot, h, stopStatusPolling, cleanupSocket, hso, hti]

/-- Witness for the amended C2 at a concrete connected state. -/
theorem disconnectRobot_success_resets_witness :
    (disconnectRobot sConnected (ApiOutcome.resolved okResp)).1.cameraStreams = [] ∧
    (disconnectRobot sConnected (ApiOutcome.resolved okResp)).1.status.connected = false ∧
    (disconnectRobot sConnected (ApiOutcome.resolved okResp)).1.statusPollingTimer = false :=
  disconnectRobot_success_resets sConnected okResp rfl

/-- Counterexample to C3: when the `connect` adapter call RESOLVES with
body `{status:'error', message:'port busy'}` (an HTTP-ok response),
`connectRobot` does not reject — it returns that body — and `status.error`
stays `null`, not `'port busy'`. -/
theorem connect_resolved_error_no_reject_counterexample :
    (connectRobot initialState (ApiOutcome.resolved portBusyResp)).2
      = JSResult.ok portBusyResp ∧
    (connectRobot initialState (ApiOutcome.resolved portBusyResp)).1.status.error = none := by
  decide

/-- Claim C3 as amended: when the `/connect` HTTP exchange fails (non-ok
response) with body `{status:'error', message:'port busy'}`, the adapter
rejects with message `'port busy'`, so `connectRobot` re-throws it and
afterwards `status.error` equals `'port busy'`. -/
theorem connect_rejected_portBusy_sets_error (s : StoreState) (code : Nat) (text : String) :
    (connectRobotViaHttp s (FetchResult.response false code text (some portBusyResp))).2
      = JSResult.thrown "port busy" ∧
    (connectRobotViaHttp s
        (FetchResult.response false code text (some portBusyResp))).1.status.error
      = some "port busy" := by
  simp [connectRobotViaHttp, apiCall, truthyOr, portBusyResp, connectRobot]

/-- Counterexample to C4: from the initial (disconnected) state, a single
`startTeleoperation` step whose adapter call resolves with success reaches
a state with `mode = 'teleoperating'` while `connected` is false — the
store never checks `connected` before setting `mode`. -/
theorem teleop_success_while_disconnected_counterexample :
    (runTrace initialState [Step.teleopStart (ApiOutcome.resolved okResp)]).status.mode
      = some "teleoperating" ∧
    (runTrace initialState [Step.teleopStart (ApiOutcome.resolved okResp)]).status.connected
      = false := by
  decide

/-- Claim C4 as amended: in every state reachable from the initial state by
a well-behaved trace — one in which `startTeleoperation` resolves with
success only while `connected` is true, and every status payload the
server returns itself satisfies the invariant — `status.mode` is non-null
only when `status.connected` is true. -/
theorem mode_nonnull_only_when_connected (tr : List Step)
    (h : wellBehaved initialState tr = true) :
    statusModeInv (runTrace initialState tr).status = true :=
  wellBehaved_preserves_modeInv tr initialState (by decide) h

/-- Witness for the amended C4 on a concrete connect-then-teleoperate
trace. -/
theorem mode_nonnull_only_when_connected_witness :
    wellBehaved initialState demoTrace = true ∧
    statusModeInv (runTrace initialState demoTrace).status = true :=
  ⟨by decide, mode_nonnull_only_when_connected demoTrace (by decide)⟩

/-- Claim C5 (refuted; code bug): the body of the `/connect` request built
when the store runs `robotApi.connect(robotConfig, robotOverrides)` is
exactly `{operation_mode: robotConfig}` — the adapter declares a single
parameter, so the overrides list is dropped and no `robot_overrides` key
is ever sent. -/
theorem connect_body_lacks_overrides (cfg : String) (ovr : Option (List String)) :
    storeConnectRequestBody cfg ovr = [("operation_mode", JVal.jstr cfg)] ∧
    (storeConnectRequestBody cfg ovr).lookup "robot_overrides" = none := by
  simp [storeConnectRequestBody, connectRequestBody, List.lookup]

/-- Counterexample to C6: after a successful connect (which populated
`status.cameras`) followed by a successful disconnect (which closed the
socket but left `status.cameras` in place), a successful
`startTeleoperation` sets `mode = 'teleoperating'` yet emits no
`start_camera_stream` event although the camera list is non-empty. -/
theorem teleop_success_no_stream_events_counterexample :
    availableCameras sAfterDisconnect ≠ [] ∧
    (startTeleoperationAction sAfterDisconnect (ApiOutcome.resolved okResp)).1.status.mode
      = some "teleoperating" ∧
    (startTeleoperationAction sAfterDisconnect (ApiOutcome.resolved okResp)).2.1 = [] := by
  decide

/-- Claim C6 as amended: if `startTeleoperation` succeeds, afterwards
`status.mode = 'teleoperating'`; and when the socket is open a
`start_camera_stream` event (fps 10) is emitted for every entry of the
camera list, while with no socket nothing is emitted. -/
theorem startTeleoperation_success_post (s : StoreState) (r : SimpleResp)
    (h : r.status = "success") :
    (startTeleoperationAction s (ApiOutcome.resolved r)).1.status.mode
      = some "teleoperating" ∧
    (s.socket = true →
      (startTeleoperationAction s (ApiOutcome.resolved r)).2.1
        = s.status.cameras.map (fun c => SockEvent.startCameraStream c.id 10)) ∧
    (s.socket = false → (startTeleoperationAction s (ApiOutcome.resolved r)).2.1 = []) := by
  cases hso : s.socket <;>
    simp [startTeleoperationAction, h, startAllCameraStreams, availableCameras, hso]

/-- Witness for the amended C6 at a connected state with one camera. -/
theorem startTeleoperation_success_post_witness :
    (startTeleoperationAction sConnected (ApiOutcome.resolved okResp)).1.status.mode
      = some "teleoperating" ∧
    (startTeleoperationAction sConnected (ApiOutcome.resolved okResp)).2.1
      = sConnected.status.cameras.map (fun c => SockEvent.startCameraStream c.id 10) :=
  ⟨(startTeleoperation_success_post sConnected okResp rfl).1,
   (startTeleoperation_success_post sConnected okResp rfl).2.1 (by decide)⟩

/-- Counterexample to C7: connect successfully, then let one poll tick
store a status payload with `connected = false`; the timer is still set,
so the next tick invokes `fetchStatus` (a GET /status call) in a state
where `connected` is false. -/
theorem poll_tick_while_disconnected_counterexample :
    (runTrace initialState pollTrace).statusPollingTimer = true ∧
    (runTrace initialState pollTrace).status.connected = false ∧
    stepApiCalls (runTrace initialState pollTrace)
        (Step.timerTick (ApiOutcome.resolved initialStatus))
      = [{ method := "GET", endpoint := "/status" }] := by
  decide

/-- Claim C7 as amended: a timer tick invokes `fetchStatus` exactly when
the interval timer is set — the callback performs no `connected` check, so
in particular a tick in a state with the timer set and `connected` false
still issues the GET /status call. -/
theorem timerTick_gated_on_timer_flag (s : StoreState) (o : ApiOutcome Status) :
    stepApiCalls s (Step.timerTick o)
      = (if s.statusPollingTimer then [{ method := "GET", endpoint := "/status" }] else []) ∧
    (s.statusPollingTimer = true → s.status.connected = false →
      stepApiCalls s (Step.timerTick o) = [{ method := "GET", endpoint := "/status" }]) := by
  have h0 : robotApiExports "getStatus" = some { method := "GET", endpoint := "/status" } := by
    decide
  cases hti : s.statusPollingTimer <;> simp [stepApiCalls, h0, hti]

/-- Witness for the amended C7: the post-`pollTrace` state has the timer
set and `connected` false, and the tick still issues GET /status. -/
theorem timerTick_gated_on_timer_flag_witness :
    stepApiCalls (runTrace initialState pollTrace)
        (Step.timerTick (ApiOutcome.rejected "network"))
      = [{ method := "GET", endpoint := "/status" }] :=
  (timerTick_gated_on_timer_flag (runTrace initialState pollTrace)
      (ApiOutcome.rejected "network")).2 (by decide) (by decide)

/-- Claim C8 (refuted; code bug): invoking the store's `startTeleoperation`
without an fps argument produces a request body with `fps: null`, not the
adapter's declared default 30 — the store's own parameter default is
`null`, and the adapter's `fps = 30` fires only on `undefined`. -/
theorem teleop_default_fps_is_null :
    storeTeleopRequestBody JSNum.undefined
      = { fps := JSNum.null, show_cameras := true } ∧
    (storeTeleopRequestBody JSNum.undefined).fps ≠ JSNum.num 30 := by
  decide

/-- Claim C9: every `sendAction` call issues no HTTP request (the adapter
exports no `sendAction` member, so the member call throws a TypeError
first), records the TypeError's message into `status.error`, and resolves
without re-throwing. -/
theorem sendAction_no_request_records_error (s : StoreState) :
    robotApiExports "sendAction" = none ∧
    (sendAction s).2.1 = [] ∧
    (sendAction s).1.status.error = some "robotApi.sendAction is not a function" ∧
    (sendAction s).2.2 = JSResult.ok () := by
  have h : robotApiExports "sendAction" = none := by decide
  simp [sendAction, h]

/-- Claim C10: a `camera_frame` event with a missing or falsy `camera_id`
or `frame` leaves the store state (in particular `cameraStreams`) entirely
unchanged, and an event with both fields truthy creates or overwrites
exactly the entry for that camera id. -/
theorem camera_frame_requires_truthy_fields (s : StoreState) (d : FrameData) :
    ((truthyStr d.camera_id = false ∨ truthyStr d.frame = false) → onCameraFrame s d = s) ∧
    (∀ cid fr, d.camera_id = some cid → d.frame = some fr → cid ≠ "" → fr ≠ "" →
      (onCameraFrame s d).cameraStreams
        = setStream cid ("data:image/jpeg;base64," ++ fr) s.cameraStreams) := by
  constructor
  · intro hfalse
    rcases hfalse with hf | hf <;> simp [onCameraFrame, hf]
  · intro cid fr hcid hfr hcid0 hfr0
    simp [onCameraFrame, hcid, hfr, truthyStr, hcid0, hfr0]

/-- Witness for C10: a frame without a camera id is ignored, and a
well-formed frame writes its entry. -/
theorem camera_frame_requires_truthy_fields_witness :
    onCameraFrame initialState dBad = initialState ∧
    (onCameraFrame initialState dGood).cameraStreams
      = setStream "cam1" ("data:image/jpeg;base64," ++ "abc") initialState.cameraStreams :=
  ⟨(camera_frame_requires_truthy_fields initialState dBad).1 (Or.inl (by decide)),
   (camera_frame_requires_truthy_fields initialState dGood).2 "cam1" "abc" rfl rfl
     (by decide) (by decide)⟩

end Robot
